import Mathlib

/-!
Verification of the streaming codec client (`pkg/compressor` of
invidian/golang-cli-testing-example) against its natural-language
specification.

The embedding works at two levels, both translated from the Go source:

* a byte-level model: a transform is a function on full byte sequences
  (`List Nat`, one entry per byte); configuration resolution and client
  construction (`NewClient`, `Config.validate`, `gzipConfig`, `noopConfig`)
  are embedded directly from the source;
* an event-trace model of the background task started by `Compress` /
  `Decompress`: the task body is straight-line code whose control flow
  depends only on the result of the `io.Copy` drain and of closing the
  transform, so each execution is a finite list of events (copy finished,
  transform closed, pipe write end closed, outcome deposited) in exactly
  the order the source performs them.

Go's standard library `compress/gzip` is not part of this repository, so
its transforms are modelled from the spec (see `gzipCompress`,
`gzipNewReader`).
-/

namespace Compressor

/-- A byte sequence: one `Nat` per byte. -/
abbrev Bytes := List Nat

/-- An error is modelled by its message string; `Option String` is a Go
`error` value (`none` = `nil`). -/
abbrev GoError := Option String

/-- Modelled from the spec: the Go standard library `compress/gzip` writer
is not part of this repository. The spec only constrains the default codec
to produce "a standard compressed-stream format" whose decompressor
round-trips and rejects malformed headers at construction, so the model
keeps the two gzip magic header bytes (`0x1f 0x8b`) and abstracts the
DEFLATE payload as the identity on the byte sequence. -/
def gzipCompress (d : Bytes) : Bytes := 31 :: 139 :: d

/-- Modelled from the spec: `gzip.NewReader` reads the stream header at
construction time and fails on a malformed header (e.g. on the literal
bytes `"foo"`); on a well-formed header it yields the decompressed
payload. -/
def gzipNewReader (d : Bytes) : Except String Bytes :=
  match d with
  | 31 :: 139 :: rest => .ok rest
  | _ => .error "gzip: invalid header"

/-- The byte sequence `"foo"` (ASCII), the spec's example of non-codec
data. -/
def fooBytes : Bytes := [102, 111, 111]

/-- Embeds `Config`: a format name plus optional compressor/decompressor
overrides. At the byte level a compressor constructor is a function on
byte sequences and a decompressor constructor is a fallible function on
byte sequences. -/
structure Config where
  Format : String
  Compressor : Option (Bytes → Bytes)
  Decompressor : Option (Bytes → Except String Bytes)

/-- Embeds the `client` struct: immutable once constructed, holding
exactly one compressor and one decompressor. -/
structure Client where
  compressor : Bytes → Bytes
  decompressor : Bytes → Except String Bytes

/-- Embeds the decompressor closure of `gzipConfig()`: construct a gzip
reader from the source, wrapping a construction failure as
`creating decompressor: %w`. -/
def gzipDecompressor (a : Bytes) : Except String Bytes :=
  match gzipNewReader a with
  | .error e => .error ("creating decompressor: " ++ e)
  | .ok rc => .ok rc

/-- Embeds `gzipConfig()`: wires the gzip transforms. -/
def gzipConfig : Config where
  Format := ""
  Compressor := some gzipCompress
  Decompressor := some gzipDecompressor

/-- Embeds the compressor closure of `noopConfig()`: `return a` — the
sink is returned unchanged, so the byte transform is the identity. -/
def noopCompress (a : Bytes) : Bytes := a

/-- Embeds the decompressor closure of `noopConfig()`:
`io.NopCloser(a)` — the source is returned unchanged (and construction
never fails), so the byte transform is the identity. -/
def noopDecompress (a : Bytes) : Except String Bytes := .ok a

/-- Embeds `noopConfig()`: wires the passthrough transforms. -/
def noopConfig : Config where
  Format := ""
  Compressor := some noopCompress
  Decompressor := some noopDecompress

/-- Embeds `Config.validate`: the decompressor is checked first, then the
compressor. -/
def Config.validate (c : Config) : GoError :=
  if c.Decompressor.isNone then some "decompressor must be configured"
  else if c.Compressor.isNone then some "compressor must be configured"
  else none

/-- The lowercase hexadecimal digit for `n < 16`, as used by
`strconv.Quote`'s `\x` escapes. -/
def hexDigit (n : Nat) : Char :=
  if n < 10 then Char.ofNat (48 + n) else Char.ofNat (87 + n)

/-- Embeds the per-character escaping of `strconv.Quote` (the Go standard
library routine behind `fmt`'s `%q` verb, not part of this repository):
the double quote and the backslash are backslash-escaped, the named
control escapes `\a \b \t \n \v \f \r` are emitted for their characters,
the remaining ASCII control characters and `0x7f` become lowercase `\x`
hex escapes, and printable characters pass through verbatim. Modelling
boundary: Go additionally `\u`-escapes non-printable runes above ASCII;
those pass through verbatim here, and no theorem below evaluates the
quoting outside the ASCII range, where this model is exact. -/
def goQuoteChar (c : Char) : List Char :=
  if c = '"' then ['\\', '"']
  else if c = '\\' then ['\\', '\\']
  else if c = '\x07' then ['\\', 'a']
  else if c = '\x08' then ['\\', 'b']
  else if c = '\t' then ['\\', 't']
  else if c = '\n' then ['\\', 'n']
  else if c = '\x0b' then ['\\', 'v']
  else if c = '\x0c' then ['\\', 'f']
  else if c = '\r' then ['\\', 'r']
  else if c.toNat < 32 ∨ c.toNat = 127 then
    ['\\', 'x', hexDigit (c.toNat / 16), hexDigit (c.toNat % 16)]
  else [c]

/-- Embeds `strconv.Quote`: the escaped characters between double
quotes. -/
def goQuote (s : String) : String :=
  ⟨'"' :: (s.data.map goQuoteChar).flatten ++ ['"']⟩

/-- A character that `strconv.Quote` reproduces verbatim: printable ASCII
other than the double quote and the backslash. -/
def plainChar (c : Char) : Prop :=
  32 ≤ c.toNat ∧ c.toNat ≤ 126 ∧ c ≠ '"' ∧ c ≠ '\\'

instance (c : Char) : Decidable (plainChar c) := by
  unfold plainChar
  infer_instance

/-- Embeds the format dispatch inside `NewClient`: only when both
overrides are absent is the format examined; `gzip` and the empty string
resolve to the gzip codec, `noop` to the passthrough codec, anything else
is an `unknown compression format %q` error, the format string rendered
by `%q` as its `strconv.Quote`d form. -/
def resolveFormat (config : Config) : Except String Config :=
  if config.Decompressor.isNone ∧ config.Compressor.isNone then
    if config.Format = "gzip" ∨ config.Format = "" then .ok gzipConfig
    else if config.Format = "noop" then .ok noopConfig
    else .error ("unknown compression format " ++ goQuote config.Format)
  else .ok config

/-- Embeds `NewClient(configs ...Config)`: more than one config is
rejected; zero configs means the gzip default; the (possibly resolved)
config is validated and its two constructors become the client's fields. -/
def NewClient (configs : List Config) : Except String Client :=
  match configs with
  | _ :: _ :: _ => .error "only one config can be passed"
  | cs =>
    let config := match cs with
      | [c] => c
      | _ => gzipConfig
    match resolveFormat config with
    | .error e => .error e
    | .ok config =>
      match config.validate with
      | some e => .error ("validating configuration: " ++ e)
      | none =>
        match config.Compressor, config.Decompressor with
        | some comp, some dec => .ok ⟨comp, dec⟩
        | _, _ => .error "validating configuration: unreachable"

/-! ## Event-trace model of the background tasks

The body of the goroutine started by `Compress` / `Decompress` is
straight-line code whose control flow depends only on the result of the
`io.Copy` drain of the input (`copyRes`) and of closing the transform
(`closeRes`), both modelled as `GoError` values supplied by the
environment. Each execution is therefore a finite list of events in
source order. -/

/-- One observable event of an in-flight operation. -/
inductive Event where
  /-- `io.Copy` through the transform returned, with the given error. -/
  | copyDone (err : GoError)
  /-- the transform (compressor / decompressor) was closed, with the
  given error. -/
  | transformClose (err : GoError)
  /-- the pipe write end was closed. -/
  | pipeClose
  /-- a value was deposited into the outcome channel (`errCh <- v`). -/
  | deposit (v : GoError)
deriving DecidableEq

/-- Embeds the anonymous inner function of the `Compress` goroutine
(source lines 109–126): drain the input through the compressor; on copy
failure return `compressing data: %w` at once; otherwise close the
compressor, on failure returning `closing compressor: %w`; only on full
success is `ctxCompressedWriter.Close()` reached. Yields the events in
source order and the returned error value. -/
def compressInner (copyRes closeRes : GoError) : List Event × GoError :=
  match copyRes with
  | some e => ([.copyDone (some e)], some ("compressing data: " ++ e))
  | none =>
    match closeRes with
    | some e =>
        ([.copyDone none, .transformClose (some e)],
         some ("closing compressor: " ++ e))
    | none =>
        ([.copyDone none, .transformClose none, .pipeClose], none)

/-- Embeds the `Compress` goroutine (`errCh <- func() error {...}()`): the
inner function runs to completion and its result is then deposited. -/
def compressTrace (copyRes closeRes : GoError) : List Event :=
  (compressInner copyRes closeRes).1 ++ [.deposit (compressInner copyRes closeRes).2]

/-- Embeds the anonymous inner function of the `Decompress` goroutine
(source lines 152–169): drain the decompressor into the pipe; on copy
failure return `decompressing data: %w` at once — the `defer` closing the
pipe write end is registered only after the copy succeeds, so on that
path no pipe close happens; otherwise the deferred pipe close runs after
`decompressor.Close()`, whose failure yields `closing decompressor: %w`. -/
def decompressInner (copyRes closeRes : GoError) : List Event × GoError :=
  match copyRes with
  | some e => ([.copyDone (some e)], some ("decompressing data: " ++ e))
  | none =>
    match closeRes with
    | some e =>
        ([.copyDone none, .transformClose (some e), .pipeClose],
         some ("closing decompressor: " ++ e))
    | none =>
        ([.copyDone none, .transformClose none, .pipeClose], none)

/-- Embeds the `Decompress` goroutine: the inner function runs to
completion (its deferred pipe close included) and its result is then
deposited. -/
def decompressTrace (copyRes closeRes : GoError) : List Event :=
  (decompressInner copyRes closeRes).1 ++
    [.deposit (decompressInner copyRes closeRes).2]

/-- The observable outcome of one whole `Compress` / `Decompress` call:
its event trace and whether a background task was started. -/
structure OpRun where
  trace : List Event
  backgroundStarted : Bool
deriving DecidableEq

/-- Embeds the whole of `(c *client).Compress`: the compressor constructor
cannot fail, so the background task always starts and contributes its
trace. -/
def compressRun (copyRes closeRes : GoError) : OpRun :=
  ⟨compressTrace copyRes closeRes, true⟩

/-- Embeds the whole of `(c *client).Decompress` (source lines 133–173):
the decompressor is constructed from the input before any task starts.
On construction failure the error is deposited wrapped as
`creating decompressor: %w`, the deferred `ctxDecompressedWriter.Close()`
runs as the function returns, and no background task is started.
Otherwise the background task runs with the given copy/close outcomes. -/
def decompressRun (c : Client) (input : Bytes) (copyRes closeRes : GoError) :
    OpRun :=
  match c.decompressor input with
  | .error e =>
      ⟨[.deposit (some ("creating decompressor: " ++ e)), .pipeClose], false⟩
  | .ok _ => ⟨decompressTrace copyRes closeRes, true⟩

/-- `true` iff every deposit event in the trace is preceded by a pipe
close: the ordering the spec calls the "ordering guarantee". -/
def depositsAfterClose (closed : Bool) : List Event → Bool
  | [] => true
  | .pipeClose :: rest => depositsAfterClose true rest
  | .deposit _ :: rest => closed && depositsAfterClose closed rest
  | _ :: rest => depositsAfterClose closed rest

/-- The number of deposit events in a trace. -/
def depositCount (t : List Event) : Nat :=
  t.countP fun e => match e with
    | .deposit _ => true
    | _ => false

/-- The value of the first deposit event of a trace, if any. -/
def firstDeposit : List Event → Option GoError
  | [] => none
  | .deposit v :: _ => some v
  | _ :: rest => firstDeposit rest

/-- N independent compress-then-decompress round trips on one shared
client. The `client` struct is immutable after construction and every
call to `Compress` / `Decompress` allocates its own pipe, transform
instance and outcome channel, so each call's result is a function of the
client's two constructor fields and that call's own input alone; the
simultaneous round trips are therefore modelled by mapping the per-call
result over the per-call inputs. -/
def concurrentRoundTrips (c : Client) (datas : List Bytes) :
    List (Except String Bytes) :=
  datas.map fun d => c.decompressor (c.compressor d)

end Compressor

namespace Compressor

/-- C5: the passthrough (noop) codec's compressor output on any byte
sequence `d` equals `d` and its decompressor output on `d` equals `d`
(with a never-failing construction), byte-for-byte: both transforms are
identities, exactly as wired by `noopConfig`. -/
theorem c5_noop_codec_is_identity (d : Bytes) :
    noopConfig.Compressor = some noopCompress ∧
    noopConfig.Decompressor = some noopDecompress ∧
    noopCompress d = d ∧ noopDecompress d = .ok d := by
  refine ⟨rfl, rfl, rfl, rfl⟩

/-- C4: for every byte sequence `d`, compressing and then decompressing
yields exactly `d`, both for the default (gzip) codec and for the
passthrough (noop) codec. The gzip transforms are modelled from the spec
(header-checked invertible framing); the noop transforms are embedded
from `noopConfig`. -/
theorem c4_round_trip (d : Bytes) :
    gzipDecompressor (gzipCompress d) = .ok d ∧
    noopDecompress (noopCompress d) = .ok d := by
  exact ⟨rfl, rfl⟩

/-- C10: whenever both overrides are supplied, `NewClient` succeeds and
the resulting client uses the two overrides verbatim, regardless of the
`Format` field — even an unrecognised format string is not consulted,
because the format dispatch is guarded by both overrides being absent. -/
theorem c10_both_overrides_skip_format_dispatch (fmt : String)
    (comp : Bytes → Bytes) (dec : Bytes → Except String Bytes) :
    NewClient [⟨fmt, some comp, some dec⟩] = .ok ⟨comp, dec⟩ := by
  simp [NewClient, resolveFormat, Config.validate]

/-- C6 counterexample: a config carrying only a compressor override does
fail construction, but the error message is
`validating configuration: decompressor must be configured`, which does
not contain the substring `must configure both compressor and
decompressor` stated by the claim. -/
theorem c6_counterexample :
    NewClient [⟨"", some noopCompress, none⟩] =
      .error "validating configuration: decompressor must be configured" ∧
    ¬ ("must configure both compressor and decompressor".toList <:+:
        "validating configuration: decompressor must be configured".toList) := by
  exact ⟨rfl, by decide⟩

/-- C6 (amended): a config supplying exactly one of the two overrides is
rejected by construction, whatever the format field holds: with only a
compressor the error is `validating configuration: decompressor must be
configured`, and with only a decompressor it is `validating
configuration: compressor must be configured` (the decompressor is
checked first by `Config.validate`). -/
theorem c6_partial_override_rejected (fmt : String)
    (comp : Bytes → Bytes) (dec : Bytes → Except String Bytes) :
    NewClient [⟨fmt, some comp, none⟩] =
      .error "validating configuration: decompressor must be configured" ∧
    NewClient [⟨fmt, none, some dec⟩] =
      .error "validating configuration: compressor must be configured" := by
  constructor <;> simp [NewClient, resolveFormat, Config.validate]

/-- Characters that need no escape are reproduced verbatim by the
quoting. -/
theorem goQuoteChar_plain (c : Char) (h : plainChar c) : goQuoteChar c = [c] := by
  obtain ⟨h1, h2, hq, hb⟩ := h
  have e7 : c ≠ '\x07' := by rintro rfl; revert h1; decide
  have e8 : c ≠ '\x08' := by rintro rfl; revert h1; decide
  have e9 : c ≠ '\t' := by rintro rfl; revert h1; decide
  have e10 : c ≠ '\n' := by rintro rfl; revert h1; decide
  have e11 : c ≠ '\x0b' := by rintro rfl; revert h1; decide
  have e12 : c ≠ '\x0c' := by rintro rfl; revert h1; decide
  have e13 : c ≠ '\r' := by rintro rfl; revert h1; decide
  have erange : ¬(c.toNat < 32 ∨ c.toNat = 127) := by omega
  unfold goQuoteChar
  rw [if_neg hq, if_neg hb, if_neg e7, if_neg e8, if_neg e9, if_neg e10,
    if_neg e11, if_neg e12, if_neg e13, if_neg erange]

/-- A list of escape-free characters passes through the quoting body
unchanged. -/
theorem goQuote_plain_chars (l : List Char) (h : ∀ c ∈ l, plainChar c) :
    (l.map goQuoteChar).flatten = l := by
  induction l with
  | nil => rfl
  | cons c rest ih =>
      have hc : plainChar c := h c (by simp)
      have hrest : ∀ x ∈ rest, plainChar x := fun x hx => h x (by simp [hx])
      simp [goQuoteChar_plain c hc, ih hrest]

/-- C7 counterexample: requesting the unknown format `a"b` fails, but
because `%q` escapes the inner double quote the message reads
`unknown compression format "a\"b"`, which does not contain the
offending format string `a"b` verbatim. -/
theorem c7_counterexample :
    NewClient [⟨"a\"b", none, none⟩] =
      .error "unknown compression format \"a\\\"b\"" ∧
    ¬ ("a\"b".data <:+: "unknown compression format \"a\\\"b\"".data) := by
  exact ⟨rfl, by decide⟩

/-- C7 (amended): requesting an unknown format (not `gzip`, not `noop`,
not empty) with no overrides fails construction with the message
`unknown compression format ` followed by the `strconv.Quote`d form of
the format string; whenever every character of the format is printable
ASCII other than the double quote and the backslash — so `%q` escapes
nothing, as in the spec's `badFormat` example — the format string appears
in the message verbatim. -/
theorem c7_unknown_format_error_quotes_format (f : String)
    (hg : f ≠ "gzip") (he : f ≠ "") (hn : f ≠ "noop") :
    NewClient [⟨f, none, none⟩] =
      .error ("unknown compression format " ++ goQuote f) ∧
    ((∀ c ∈ f.data, plainChar c) →
      f.data <:+: ("unknown compression format " ++ goQuote f).data) := by
  constructor
  · simp [NewClient, resolveFormat, hg, he, hn]
  · intro hplain
    refine ⟨"unknown compression format ".data ++ ['"'], ['"'], ?_⟩
    have hquote : goQuote f = ⟨'"' :: f.data ++ ['"']⟩ := by
      unfold goQuote
      rw [goQuote_plain_chars f.data hplain]
    rw [String.data_append, hquote]
    simp

/-- C7 witness: the spec's own example, format `badFormat`, all of whose
characters are escape-free. -/
theorem c7_witness :
    ("badFormat" ≠ "gzip" ∧ "badFormat" ≠ "" ∧ "badFormat" ≠ "noop") ∧
    NewClient [⟨"badFormat", none, none⟩] =
      .error ("unknown compression format " ++ goQuote "badFormat") ∧
    "badFormat".data <:+:
      ("unknown compression format " ++ goQuote "badFormat").data :=
  ⟨⟨by decide, by decide, by decide⟩,
    (c7_unknown_format_error_quotes_format "badFormat" (by decide) (by decide)
      (by decide)).1,
    (c7_unknown_format_error_quotes_format "badFormat" (by decide) (by decide)
      (by decide)).2 (by decide)⟩

/-- C3: the deposited outcome follows the source's precedence: a copy
failure is deposited as `compressing data: %w` / `decompressing data: %w`
whatever the transform close would have returned (the close is not even
attempted); a close failure after a successful copy is deposited as
`closing compressor: %w` / `closing decompressor: %w`; and two successes
deposit the success value `nil`. -/
theorem c3_error_precedence (copyRes closeRes : GoError) :
    firstDeposit (compressTrace copyRes closeRes) =
      some (match copyRes with
        | some e => some ("compressing data: " ++ e)
        | none => match closeRes with
          | some e => some ("closing compressor: " ++ e)
          | none => none) ∧
    firstDeposit (decompressTrace copyRes closeRes) =
      some (match copyRes with
        | some e => some ("decompressing data: " ++ e)
        | none => match closeRes with
          | some e => some ("closing decompressor: " ++ e)
          | none => none) := by
  cases copyRes <;> cases closeRes <;>
    simp [compressTrace, compressInner, decompressTrace, decompressInner,
      firstDeposit]

/-- C8: every execution of `Compress`, and of `Decompress` on any client
and input (decompressor construction failing or not), deposits exactly
one value into the outcome channel. The channel is created with capacity
one and this is its only send, so a caller receive blocks until that one
deposit and never yields a spurious result. -/
theorem c8_exactly_one_deposit (c : Client) (input : Bytes)
    (copyRes closeRes : GoError) :
    depositCount (compressRun copyRes closeRes).trace = 1 ∧
    depositCount (decompressRun c input copyRes closeRes).trace = 1 := by
  constructor
  · cases copyRes <;> cases closeRes <;>
      simp [compressRun, compressTrace, compressInner, depositCount]
  · cases h : c.decompressor input with
    | error e =>
        simp [decompressRun, h, depositCount]
    | ok out =>
        cases copyRes <;> cases closeRes <;>
          simp [decompressRun, h, decompressTrace, decompressInner,
            depositCount]

/-- C2: whenever the decompressor constructor fails on the given input,
`Decompress` deposits that error (wrapped as `creating decompressor: %w`)
into the outcome channel, closes the pipe write end via the deferred
close before returning (so a caller read observes end-of-stream), and
starts no background task. The model is a total function, so no
execution of this path panics. -/
theorem c2_decompress_ctor_failure (c : Client) (input : Bytes)
    (e : String) (copyRes closeRes : GoError)
    (h : c.decompressor input = .error e) :
    decompressRun c input copyRes closeRes =
      ⟨[.deposit (some ("creating decompressor: " ++ e)), .pipeClose],
        false⟩ ∧
    Event.pipeClose ∈ (decompressRun c input copyRes closeRes).trace ∧
    depositCount (decompressRun c input copyRes closeRes).trace = 1 := by
  refine ⟨?_, ?_, ?_⟩ <;> simp [decompressRun, h, depositCount]

/-- C2 witness: the default gzip codec's decompressor constructor fails
on the literal bytes `"foo"` (no gzip magic header), and `Decompress`
then behaves as `c2_decompress_ctor_failure` states. -/
theorem c2_witness :
    gzipDecompressor fooBytes =
      .error "creating decompressor: gzip: invalid header" ∧
    decompressRun ⟨gzipCompress, gzipDecompressor⟩ fooBytes none none =
      ⟨[.deposit (some ("creating decompressor: " ++
            "creating decompressor: gzip: invalid header")),
          .pipeClose], false⟩ ∧
    Event.pipeClose ∈
      (decompressRun ⟨gzipCompress, gzipDecompressor⟩ fooBytes none none).trace ∧
    depositCount
      (decompressRun ⟨gzipCompress, gzipDecompressor⟩ fooBytes none none).trace
      = 1 := by
  refine ⟨rfl, ?_⟩
  exact c2_decompress_ctor_failure ⟨gzipCompress, gzipDecompressor⟩ fooBytes
    "creating decompressor: gzip: invalid header" none none rfl

/-- C1: evaluation of the background tasks on their failure paths. When
draining the input fails, both `Compress` and `Decompress` deposit the
error without the pipe write end ever being closed (`Compress` has no
deferred close at all, and `Decompress` registers its deferred close only
after a successful copy); `Compress` also skips the pipe close when
flushing the compressor fails. The claimed close-before-deposit ordering
holds only on the success paths and on `Decompress`'s flush-failure
path. -/
theorem c1_failure_paths_skip_pipe_close :
    depositsAfterClose false (compressTrace (some "input read failure") none)
      = false ∧
    Event.pipeClose ∉ compressTrace (some "input read failure") none ∧
    depositsAfterClose false (compressTrace none (some "flush failure"))
      = false ∧
    Event.pipeClose ∉ compressTrace none (some "flush failure") ∧
    depositsAfterClose false
      (decompressTrace (some "input read failure") none) = false ∧
    Event.pipeClose ∉ decompressTrace (some "input read failure") none ∧
    depositsAfterClose false (compressTrace none none) = true ∧
    depositsAfterClose false (decompressTrace none none) = true ∧
    depositsAfterClose false (decompressTrace none (some "flush failure"))
      = true := by
  decide

/-- Helper shared by the round-trip and concurrency results: the modelled
gzip decompressor inverts the modelled gzip compressor. -/
theorem gzip_round_trip_aux (d : Bytes) :
    gzipDecompressor (gzipCompress d) = .ok d := rfl

/-- C9: N simultaneous compress-then-decompress round trips on the shared
default client, each with its own input, all yield their own input back
uncorrupted: the client is immutable and every call owns its pipe,
transform instance and outcome channel, so each concurrent result is the
same pure function of the client fields and that call's input. -/
theorem c9_concurrent_round_trips (client : Client) (datas : List Bytes)
    (hc : NewClient [] = .ok client) (_hn : 5 ≤ datas.length) :
    concurrentRoundTrips client datas = datas.map .ok := by
  have hclient : client = ⟨gzipCompress, gzipDecompressor⟩ := by
    have h : (Except.ok (⟨gzipCompress, gzipDecompressor⟩ : Client) :
        Except String Client) = .ok client := hc ▸ rfl
    exact (Except.ok.injEq _ _).mp h |>.symm
  subst hclient
  simp [concurrentRoundTrips, gzip_round_trip_aux]

/-- C9 witness: five round trips on the default client. -/
theorem c9_witness :
    NewClient [] = .ok ⟨gzipCompress, gzipDecompressor⟩ ∧
    5 ≤ ([[0], [1], [2], [3], [4]] : List Bytes).length ∧
    concurrentRoundTrips ⟨gzipCompress, gzipDecompressor⟩
        [[0], [1], [2], [3], [4]] =
      ([[0], [1], [2], [3], [4]] : List Bytes).map .ok :=
  ⟨rfl, by decide,
    c9_concurrent_round_trips ⟨gzipCompress, gzipDecompressor⟩
      [[0], [1], [2], [3], [4]] rfl (by decide)⟩

end Compressor
